import Mathlib

/-!
Shallow embedding of `src/app/core/logging.py` (module `app.core.logging`).

The module wires Python's `logging` package: a context variable holding the
current user, a record filter stamping that user onto records, an idempotent
root-logger setup with three handlers, and per-module rotating-file handlers
attached lazily by `get_logger`.

Modelling conventions:
* Paths are plain strings.  `os.path.abspath` and `pathlib`'s `/` are modelled
  for already-normalised path strings (no `.`/`..` components, no doubled or
  trailing slashes); every concrete input used below is of that shape.
* The process environment is an association list; `os.getenv` is a lookup with
  a default.
* Fallible Python calls (`Logger.setLevel` raising `ValueError` on a bad level
  argument) are modelled with `Except String`.
* File-system side effects (`mkdir`, opening the log file) are outside the
  model; only the paths, levels and handler lists they produce are kept.
-/

namespace AppLogging

/-- A process environment: association list from variable name to value. -/
abbrev Env := List (String × String)

/-- `os.getenv(key, dflt)`: the value bound to `key`, or `dflt` when unset. -/
def getenv (env : Env) (key dflt : String) : String :=
  match env.find? (fun p => p.1 == key) with
  | some p => p.2
  | none => dflt

/-- Python `str.upper()` restricted to ASCII (all inputs of interest are
ASCII): uppercase every character. -/
def pyUpper (s : String) : String := ⟨s.data.map Char.toUpper⟩

/-- Python `str.replace(a, b)` for a one-character pattern and one-character
replacement: substitute every occurrence of `a` by `b`. -/
def replaceChar (s : String) (a b : Char) : String :=
  ⟨s.data.map (fun c => if c = a then b else c)⟩

/-- `true` iff the path string is absolute (POSIX: its first character is `/`). -/
def isAbsolute (p : String) : Bool := p.data.head? == some '/'

/-- `pathlib`'s `dir / file` for a normalised directory string without a
trailing slash: join with a single `/`. -/
def pathJoin (d f : String) : String := d ++ "/" ++ f

/-- `os.path.abspath(p)` for normalised inputs: `p` itself when absolute,
otherwise `p` resolved against the current working directory. -/
def abspath (cwd p : String) : String :=
  if isAbsolute p then p else pathJoin cwd p

/-- A value `getattr(logging, name)` can produce for an all-uppercase `name`:
the integer level constants, or the string constant `BASIC_FORMAT`. -/
inductive PyLevel where
  | int (n : Nat)
  | str (s : String)
deriving DecidableEq, Repr

/-- `getattr(logging, name)` over the all-uppercase attributes of Python's
`logging` module (only these can match `os.getenv(..).upper()`): the level
constants `CRITICAL/FATAL/ERROR/WARNING/WARN/INFO/DEBUG/NOTSET` and the
string `BASIC_FORMAT`. -/
def loggingGetattr (name : String) : Option PyLevel :=
  match name with
  | "CRITICAL" => some (PyLevel.int 50)
  | "FATAL" => some (PyLevel.int 50)
  | "ERROR" => some (PyLevel.int 40)
  | "WARNING" => some (PyLevel.int 30)
  | "WARN" => some (PyLevel.int 30)
  | "INFO" => some (PyLevel.int 20)
  | "DEBUG" => some (PyLevel.int 10)
  | "NOTSET" => some (PyLevel.int 0)
  | "BASIC_FORMAT" => some (PyLevel.str "%(levelname)s:%(name)s:%(message)s")
  | _ => none

/-- `logging._nameToLevel`: the level names accepted by `setLevel` when a
string is passed. -/
def nameToLevel (name : String) : Option Nat :=
  match name with
  | "CRITICAL" => some 50
  | "FATAL" => some 50
  | "ERROR" => some 40
  | "WARN" => some 30
  | "WARNING" => some 30
  | "INFO" => some 20
  | "DEBUG" => some 10
  | "NOTSET" => some 0
  | _ => none

/-- `logging._checkLevel`, as invoked by `Logger.setLevel` / `Handler.setLevel`:
an `int` passes through, a string must name a level, anything else raises. -/
def checkLevel : PyLevel → Except String Nat
  | PyLevel.int n => Except.ok n
  | PyLevel.str s =>
    match nameToLevel s with
    | some n => Except.ok n
    | none => Except.error ("Unknown level: " ++ s)

/-- `_get_log_dir()`: `Path(os.getenv("LOG_DIR", "logs"))` as a string (the
`mkdir` side effect is outside the model). -/
def get_log_dir (env : Env) : String := getenv env "LOG_DIR" "logs"

/-- `_get_log_level()`: `getattr(logging, os.getenv("LOG_LEVEL", "INFO").upper(),
logging.INFO)`. -/
def get_log_level (env : Env) : PyLevel :=
  (loggingGetattr (pyUpper (getenv env "LOG_LEVEL" "INFO"))).getD (PyLevel.int 20)

/-- The default of the context variable
`_current_user = contextvars.ContextVar("current_user", default="-")`. -/
def currentUserDefault : String := "-"

/-- `set_log_user(user)`: stores `user or "-"` in the context variable and
returns a token capturing the prior value.  State passing is explicit: the
argument `cur` is the value current before the call, the result is the pair
(new current value, token). -/
def set_log_user (user : Option String) (cur : String) : String × String :=
  (match user with
   | none => "-"
   | some s => if s = "" then "-" else s,
   cur)

/-- `reset_log_user(token)`: `ContextVar.reset` restores the value captured by
the token; the result is the current value after the call. -/
def reset_log_user (token : String) : String := token

/-- A Python `logging.LogRecord` as far as this module touches it: logger name,
numeric severity, message, and the dynamically injected `user` attribute
(`none` before `_UserContextFilter.filter` ran). -/
structure LogRecord where
  name : String
  levelno : Nat
  msg : String
  user : Option String
deriving DecidableEq, Repr

/-- `_UserContextFilter.filter(record)`: stamp `record.user` with the value of
the context variable at the instant of the call and admit the record.  The
emission-time current value is the explicit argument `currentUser`; the result
is the updated record paired with the boolean admit signal. -/
def userContextFilter_filter (currentUser : String) (r : LogRecord) :
    LogRecord × Bool :=
  ({ r with user := some currentUser }, true)

/-- `logging.getLevelName` for the standard levels (used by the formatter's
`%(levelname)s`). -/
def getLevelName (n : Nat) : String :=
  if n = 50 then "CRITICAL"
  else if n = 40 then "ERROR"
  else if n = 30 then "WARNING"
  else if n = 20 then "INFO"
  else if n = 10 then "DEBUG"
  else if n = 0 then "NOTSET"
  else "Level " ++ toString n

/-- `_get_formatter()` applied to a record:
`"%(asctime)s %(levelname)s %(name)s user=%(user)s %(message)s"`.  The
timestamp is an argument (it comes from the clock); formatting a record whose
`user` attribute was never injected raises in Python, hence the `Option`. -/
def format_record (asctime : String) (r : LogRecord) : Option String :=
  match r.user with
  | none => none
  | some u =>
    some (asctime ++ " " ++ getLevelName r.levelno ++ " " ++ r.name
      ++ " user=" ++ u ++ " " ++ r.msg)

/-- The kind of a handler: `logging.StreamHandler` or
`logging.handlers.RotatingFileHandler`. -/
inductive HandlerKind where
  | stream
  | rotatingFile
deriving DecidableEq, Repr

/-- A configured handler.  For a `RotatingFileHandler`, `baseFilename` is the
absolute path `FileHandler.__init__` stores (`os.path.abspath(filename)`);
for a `StreamHandler` it is `none` and the rotation fields are zero. -/
structure Handler where
  kind : HandlerKind
  baseFilename : Option String
  level : Nat
  maxBytes : Nat
  backupCount : Nat
  hasUserFilter : Bool
deriving DecidableEq, Repr

/-- `Logger.callHandlers` offers a record to a handler iff
`record.levelno >= handler.level`. -/
def handlerAdmits (h : Handler) (levelno : Nat) : Bool :=
  decide (h.level ≤ levelno)

/-- The state of the `logging` package this module manipulates: the working
directory (fixing `os.path.abspath`), the environment, the root logger's level
and handler list, and each named logger's own handler list (absent name ≙ a
fresh logger with no handlers). -/
structure LogState where
  cwd : String
  env : Env
  rootLevel : Nat
  rootHandlers : List Handler
  loggers : List (String × List Handler)
deriving DecidableEq, Repr

/-- A fresh process: root logger at its default level `WARNING` with no
handlers, no named logger touched yet. -/
def initState (cwd : String) (env : Env) : LogState :=
  { cwd := cwd, env := env, rootLevel := 30, rootHandlers := [], loggers := [] }

/-- `logging.getLogger(name).handlers` in our state (a never-touched logger
has no handlers). -/
def getLoggerHandlers (s : LogState) (name : String) : List Handler :=
  match s.loggers.find? (fun p => p.1 == name) with
  | some p => p.2
  | none => []

/-- Replace (or create) the handler list of the named logger. -/
def setLoggerHandlers (m : List (String × List Handler)) (name : String)
    (hs : List Handler) : List (String × List Handler) :=
  match m with
  | [] => [(name, hs)]
  | p :: rest =>
    if p.1 = name then (name, hs) :: rest else p :: setLoggerHandlers rest name hs

/-- `setup_logging()`: read directory and level, no-op when the root logger
already has handlers, otherwise set the root level and attach the console,
`app.log` and `error.log` handlers.  `setLevel` on a bad level raises, hence
`Except`. -/
def setup_logging (s : LogState) : Except String LogState :=
  let log_dir := get_log_dir s.env
  let level := get_log_level s.env
  if s.rootHandlers.isEmpty then do
    let lv ← checkLevel level
    let console_handler : Handler :=
      { kind := HandlerKind.stream, baseFilename := none, level := lv,
        maxBytes := 0, backupCount := 0, hasUserFilter := true }
    let app_file : Handler :=
      { kind := HandlerKind.rotatingFile,
        baseFilename := some (abspath s.cwd (pathJoin log_dir "app.log")),
        level := lv, maxBytes := 5 * 1024 * 1024, backupCount := 5,
        hasUserFilter := true }
    let error_file : Handler :=
      { kind := HandlerKind.rotatingFile,
        baseFilename := some (abspath s.cwd (pathJoin log_dir "error.log")),
        level := 40, maxBytes := 5 * 1024 * 1024, backupCount := 5,
        hasUserFilter := true }
    Except.ok { s with rootLevel := lv,
                       rootHandlers := [console_handler, app_file, error_file] }
  else
    Except.ok s

/-- The name sanitisation inside `_ensure_module_handler`:
`name.replace("/", "_").replace("\\", "_").replace(".", "_")`. -/
def safe_name_of (name : String) : String :=
  replaceChar (replaceChar (replaceChar name '/' '_') '\\' '_') '.' '_'

/-- `_ensure_module_handler(logger, name)` acting on the logger's handler
list: re-read directory and level from the environment, build the candidate
path `log_dir / f"{safe_name}.log"`, return unchanged when some attached
`RotatingFileHandler` has `baseFilename == str(module_log_path)` (note: the
stored `baseFilename` is absolute, the compared string is the unresolved
path), else append a fresh rotating handler at that path. -/
def ensure_module_handler (cwd : String) (env : Env) (handlers : List Handler)
    (name : String) : Except String (List Handler) :=
  let log_dir := get_log_dir env
  let level := get_log_level env
  let safe_name := safe_name_of name
  let module_log_path := pathJoin log_dir (safe_name ++ ".log")
  if handlers.any (fun h =>
      h.kind == HandlerKind.rotatingFile
        && h.baseFilename == some module_log_path) then
    Except.ok handlers
  else do
    let lv ← checkLevel level
    Except.ok (handlers ++
      [{ kind := HandlerKind.rotatingFile,
         baseFilename := some (abspath cwd module_log_path),
         level := lv, maxBytes := 5 * 1024 * 1024, backupCount := 5,
         hasUserFilter := true }])

/-- The `name or "app"` default of `get_logger` (Python truthiness: both an
absent argument and the empty string fall back to `"app"`). -/
def logger_name_of : Option String → String
  | none => "app"
  | some n => if n = "" then "app" else n

/-- `get_logger(name)`: resolve the logger name, ensure its module handler,
and return the updated state together with the resolved logger name. -/
def get_logger (s : LogState) (name : Option String) :
    Except String (LogState × String) :=
  let lname := logger_name_of name
  let hs := getLoggerHandlers s lname
  do
    let hs2 ← ensure_module_handler s.cwd s.env hs lname
    Except.ok ({ s with loggers := setLoggerHandlers s.loggers lname hs2 }, lname)

/-- `n` successive `get_logger name` calls, threading the state. -/
def iterateGetLogger : Nat → Option String → LogState → Except String LogState
  | 0, _, s => Except.ok s
  | Nat.succ k, name, s => do
    let p ← get_logger s name
    iterateGetLogger k name p.1

/-- The character-wise description of the name sanitisation (the spec's
"replace path-separator characters and the extension-separator character with
underscore"), to be compared with the three sequential `replace` calls of
`safe_name_of`. -/
def sanitizeChar (c : Char) : Char :=
  if c = '/' then '_'
  else if c = '\\' then '_'
  else if c = '.' then '_'
  else c

end AppLogging

open AppLogging

/-- C1.  The claimed idempotency of the component sink fails on the code: with
the default relative log directory (`LOG_DIR` unset, so `logs`), five
`get_logger "billing"` calls attach five rotating-file handlers to the
`billing` logger, every one of them resolving to the same absolute path
`/srv/logs/billing.log`.  The duplicate check compares the handler's stored
absolute `baseFilename` against the unresolved string `logs/billing.log`,
which never match. -/
theorem component_sink_duplicated_on_relative_log_dir :
    (iterateGetLogger 5 (some "billing") (initState "/srv" [])).map
        (fun s => (getLoggerHandlers s "billing").map Handler.baseFilename)
      = Except.ok (List.replicate 5 (some "/srv/logs/billing.log")) := by
  rfl

/-- C2.  `setup_logging` attaches exactly three handlers to an untouched root
logger — a console stream handler, a rotating `app.log` handler and a rotating
`error.log` handler — and running it again on the result (or on any state whose
root logger already has a handler) is a no-op. -/
theorem setup_logging_three_sinks_idempotent :
    (∀ (s : LogState) (lv : Nat), s.rootHandlers = [] →
      checkLevel (get_log_level s.env) = Except.ok lv →
      (setup_logging s).map (fun t =>
          (t.rootHandlers.length,
           t.rootHandlers.map Handler.kind,
           t.rootHandlers.map Handler.baseFilename))
        = Except.ok (3,
            [HandlerKind.stream, HandlerKind.rotatingFile,
             HandlerKind.rotatingFile],
            [none,
             some (abspath s.cwd (pathJoin (get_log_dir s.env) "app.log")),
             some (abspath s.cwd (pathJoin (get_log_dir s.env) "error.log"))]) ∧
      (setup_logging s).bind setup_logging = setup_logging s) ∧
    (∀ s : LogState, s.rootHandlers ≠ [] → setup_logging s = Except.ok s) := by
  constructor
  · intro s lv hempty hlv
    have h1 : setup_logging s = Except.ok
        { s with rootLevel := lv,
                 rootHandlers :=
                   [{ kind := HandlerKind.stream, baseFilename := none,
                      level := lv, maxBytes := 0, backupCount := 0,
                      hasUserFilter := true },
                    { kind := HandlerKind.rotatingFile,
                      baseFilename := some (abspath s.cwd
                        (pathJoin (get_log_dir s.env) "app.log")),
                      level := lv, maxBytes := 5 * 1024 * 1024,
                      backupCount := 5, hasUserFilter := true },
                    { kind := HandlerKind.rotatingFile,
                      baseFilename := some (abspath s.cwd
                        (pathJoin (get_log_dir s.env) "error.log")),
                      level := 40, maxBytes := 5 * 1024 * 1024,
                      backupCount := 5, hasUserFilter := true }] } := by
      simp only [setup_logging, hempty, List.isEmpty_nil, if_true, hlv]
      rfl
    constructor
    · rw [h1]
      rfl
    · rw [h1]
      have h2 : setup_logging
          { s with rootLevel := lv,
                   rootHandlers :=
                     [{ kind := HandlerKind.stream, baseFilename := none,
                        level := lv, maxBytes := 0, backupCount := 0,
                        hasUserFilter := true },
                      { kind := HandlerKind.rotatingFile,
                        baseFilename := some (abspath s.cwd
                          (pathJoin (get_log_dir s.env) "app.log")),
                        level := lv, maxBytes := 5 * 1024 * 1024,
                        backupCount := 5, hasUserFilter := true },
                      { kind := HandlerKind.rotatingFile,
                        baseFilename := some (abspath s.cwd
                          (pathJoin (get_log_dir s.env) "error.log")),
                        level := 40, maxBytes := 5 * 1024 * 1024,
                        backupCount := 5, hasUserFilter := true }] } =
        Except.ok
          { s with rootLevel := lv,
                   rootHandlers :=
                     [{ kind := HandlerKind.stream, baseFilename := none,
                        level := lv, maxBytes := 0, backupCount := 0,
                        hasUserFilter := true },
                      { kind := HandlerKind.rotatingFile,
                        baseFilename := some (abspath s.cwd
                          (pathJoin (get_log_dir s.env) "app.log")),
                        level := lv, maxBytes := 5 * 1024 * 1024,
                        backupCount := 5, hasUserFilter := true },
                      { kind := HandlerKind.rotatingFile,
                        baseFilename := some (abspath s.cwd
                          (pathJoin (get_log_dir s.env) "error.log")),
                        level := 40, maxBytes := 5 * 1024 * 1024,
                        backupCount := 5, hasUserFilter := true }] } := by
        simp [setup_logging]
      exact h2
  · intro s hne
    cases hr : s.rootHandlers with
    | nil => exact absurd hr hne
    | cons a t => simp [setup_logging, hr]

/-- Witness for C2: a concrete fresh state (working directory `/srv`, empty
environment, default level `INFO` = 20) on which both hypotheses hold. -/
theorem setup_logging_three_sinks_idempotent_witness :
    (setup_logging (initState "/srv" [])).map (fun t =>
        (t.rootHandlers.length,
         t.rootHandlers.map Handler.kind,
         t.rootHandlers.map Handler.baseFilename))
      = Except.ok (3,
          [HandlerKind.stream, HandlerKind.rotatingFile,
           HandlerKind.rotatingFile],
          [none, some "/srv/logs/app.log", some "/srv/logs/error.log"]) ∧
    (setup_logging (initState "/srv" [])).bind setup_logging
      = setup_logging (initState "/srv" []) :=
  setup_logging_three_sinks_idempotent.1 (initState "/srv" []) 20 rfl rfl

/-- C3.  The token returned by `set_log_user` captures the value current
before the call, and `reset_log_user` with that token restores it; under
nesting the inner reset restores the value the outer set produced and the
outer reset restores the original value (stack discipline). -/
theorem actor_token_restore_stack :
    ∀ v x y : String,
      reset_log_user (set_log_user (some x) v).2 = v ∧
      reset_log_user
          (set_log_user (some y) (set_log_user (some x) v).1).2
        = (set_log_user (some x) v).1 ∧
      reset_log_user (set_log_user (some x) v).2 = v := by
  intro v x y
  exact ⟨rfl, rfl, rfl⟩

/-- C4.  The context variable defaults to the sentinel `"-"`; `set_log_user`
with an absent identifier stores `"-"`; a record emitted with no
`set_log_user` ever called is stamped `user = "-"` by the filter and the
formatter renders it as `user=-`. -/
theorem default_actor_sentinel :
    currentUserDefault = "-" ∧
    (∀ v : String, (set_log_user none v).1 = "-") ∧
    (∀ r : LogRecord,
      ((userContextFilter_filter currentUserDefault r).1).user = some "-") ∧
    format_record "2024-01-01 00:00:00"
        ((userContextFilter_filter currentUserDefault
          { name := "app", levelno := 20, msg := "hello", user := none }).1)
      = some "2024-01-01 00:00:00 INFO app user=- hello" :=
  ⟨rfl, fun _ => rfl, fun _ => rfl, rfl⟩

/-- C5.  Name sanitisation replaces `/`, `\` and `.` by `_`: `"a/b.c"` maps to
the file name `a_b_c.log` under the default log directory; the transform is
non-injective (`"a.b"` and `"a/b"` are distinct but collide); and in general
`safe_name_of` is exactly the character-wise substitution `sanitizeChar`. -/
theorem name_sanitization :
    safe_name_of "a/b.c" = "a_b_c" ∧
    pathJoin (get_log_dir []) (safe_name_of "a/b.c" ++ ".log")
      = "logs/a_b_c.log" ∧
    ("a.b" ≠ "a/b" ∧ safe_name_of "a.b" = safe_name_of "a/b") ∧
    (∀ name : String, safe_name_of name = ⟨name.data.map sanitizeChar⟩) := by
  refine ⟨rfl, rfl, ⟨by decide, rfl⟩, ?_⟩
  intro name
  show (⟨(((name.data.map fun c => if c = '/' then '_' else c).map
      fun c => if c = '\\' then '_' else c).map
      fun c => if c = '.' then '_' else c)⟩ : String)
    = ⟨name.data.map sanitizeChar⟩
  rw [List.map_map, List.map_map]
  refine congrArg String.mk (List.map_congr_left ?_)
  intro c _
  simp only [Function.comp]
  by_cases h1 : c = '/'
  · simp [h1, sanitizeChar]
  · by_cases h2 : c = '\\'
    · simp [h1, h2, sanitizeChar]
    · by_cases h3 : c = '.'
      · simp [h1, h2, h3, sanitizeChar]
      · simp [h1, h2, h3, sanitizeChar]

/-- C6.  With the default global minimum severity (`get_log_level` gives
`INFO` = 20), the three root handlers admit records as follows: a WARNING
record (30) is admitted by the console and `app.log` handlers but not by the
`error.log` handler, and an ERROR record (40) is admitted by all three;
moreover the `error.log` handler's level is 40 whatever the configured global
minimum severity is. -/
theorem severity_filtering :
    (∀ s : LogState, s.rootHandlers = [] →
      get_log_level s.env = PyLevel.int 20 →
      (setup_logging s).map (fun t =>
          t.rootHandlers.map (fun h => (handlerAdmits h 30, handlerAdmits h 40)))
        = Except.ok [(true, true), (true, true), (false, true)]) ∧
    (∀ (s : LogState) (lv : Nat), s.rootHandlers = [] →
      checkLevel (get_log_level s.env) = Except.ok lv →
      (setup_logging s).map (fun t => (t.rootHandlers.map Handler.level).get? 2)
        = Except.ok (some 40)) := by
  constructor
  · intro s hempty hlv
    simp only [setup_logging, hempty, List.isEmpty_nil, if_true, hlv]
    rfl
  · intro s lv hempty hlv
    simp only [setup_logging, hempty, List.isEmpty_nil, if_true, hlv]
    rfl

/-- Witness for C6: the fresh state with empty environment, whose level is the
default `INFO` = 20. -/
theorem severity_filtering_witness :
    (setup_logging (initState "/srv" [])).map (fun t =>
        t.rootHandlers.map (fun h => (handlerAdmits h 30, handlerAdmits h 40)))
      = Except.ok [(true, true), (true, true), (false, true)] ∧
    (setup_logging (initState "/srv" [])).map
        (fun t => (t.rootHandlers.map Handler.level).get? 2)
      = Except.ok (some 40) :=
  ⟨severity_filtering.1 (initState "/srv" []) rfl rfl,
   severity_filtering.2 (initState "/srv" []) 20 rfl rfl⟩

/-- C7, counterexample.  The value `WARN` is not (even case-insensitively) one
of DEBUG, INFO, WARNING, ERROR, CRITICAL, yet `_get_log_level` resolves it via
`getattr(logging, "WARN")` to 30 instead of falling back to the default
INFO = 20, so the claim as stated is false. -/
theorem log_level_fallback_counterexample :
    pyUpper "WARN" ∉ ["DEBUG", "INFO", "WARNING", "ERROR", "CRITICAL"] ∧
    get_log_level [("LOG_LEVEL", "WARN")] = PyLevel.int 30 ∧
    PyLevel.int 30 ≠ PyLevel.int 20 := by
  refine ⟨by decide, rfl, by decide⟩

/-- C7, amended.  If the uppercased configuration value is not an uppercase
attribute of Python's `logging` module (the level constants DEBUG, INFO,
WARNING, WARN, ERROR, FATAL, CRITICAL, NOTSET, or the string constant
BASIC_FORMAT), the configured level falls back to the default INFO = 20 and
root initialization succeeds with three handlers; recognised aliases such as
WARN resolve to their attribute value instead of the default. -/
theorem log_level_fallback_amended :
    ∀ cwd v : String, loggingGetattr (pyUpper v) = none →
      get_log_level [("LOG_LEVEL", v)] = PyLevel.int 20 ∧
      (setup_logging (initState cwd [("LOG_LEVEL", v)])).map
          (fun t => (t.rootLevel, t.rootHandlers.length))
        = Except.ok (20, 3) := by
  intro cwd v hv
  have hlv : get_log_level [("LOG_LEVEL", v)] = PyLevel.int 20 := by
    simp [get_log_level, getenv, hv]
  refine ⟨hlv, ?_⟩
  simp only [setup_logging, initState, List.isEmpty_nil, if_true, hlv]
  rfl

/-- Witness for C7's amended theorem: the unrecognised value `verbose`. -/
theorem log_level_fallback_amended_witness :
    get_log_level [("LOG_LEVEL", "verbose")] = PyLevel.int 20 ∧
    (setup_logging (initState "/srv" [("LOG_LEVEL", "verbose")])).map
        (fun t => (t.rootLevel, t.rootHandlers.length))
      = Except.ok (20, 3) :=
  log_level_fallback_amended "/srv" "verbose" rfl

/-- C8.  The filter admits every record (its boolean result is `true` for all
inputs), stamps `user` with the context value current at the instant of the
call, and leaves the other record fields untouched. -/
theorem record_enricher_always_admits :
    ∀ (u : String) (r : LogRecord),
      (userContextFilter_filter u r).2 = true ∧
      (userContextFilter_filter u r).1.user = some u ∧
      (userContextFilter_filter u r).1.name = r.name ∧
      (userContextFilter_filter u r).1.levelno = r.levelno ∧
      (userContextFilter_filter u r).1.msg = r.msg := by
  intro u r
  exact ⟨rfl, rfl, rfl, rfl, rfl⟩

/-- C9, counterexample.  Root initialization runs with `LOG_DIR=/var/log/a`;
the environment then changes to `LOG_DIR=/var/log/b` before `get_logger "x"`.
The component sink is created at `/var/log/b/x.log` — the directory read from
the environment at the time of the `get_logger` call — and not at the
root-initialization-time path `/var/log/a/x.log`, so the claim that
configuration is read exactly once at root initialization is false. -/
theorem config_reread_counterexample :
    (do
      let s1 ← setup_logging (initState "/srv" [("LOG_DIR", "/var/log/a")])
      let s2 : LogState := { s1 with env := [("LOG_DIR", "/var/log/b")] }
      let p ← get_logger s2 (some "x")
      Except.ok ((getLoggerHandlers p.1 "x").map Handler.baseFilename))
      = Except.ok [some "/var/log/b/x.log"] ∧
    abspath "/srv" (pathJoin (get_log_dir [("LOG_DIR", "/var/log/a")])
        (safe_name_of "x" ++ ".log"))
      = "/var/log/a/x.log" ∧
    "/var/log/b/x.log" ≠ "/var/log/a/x.log" := by
  refine ⟨rfl, rfl, by decide⟩

/-- C9, amended.  `_ensure_module_handler` re-reads the log directory and the
minimum severity from the environment on every call: whenever no attached
rotating handler matches the candidate path and the current level value is
valid, it appends a handler whose path and level are computed from the
environment as it is at the time of that call. -/
theorem config_reread_each_call :
    ∀ (cwd : String) (env : Env) (handlers : List Handler)
      (name : String) (lv : Nat),
      checkLevel (get_log_level env) = Except.ok lv →
      handlers.any (fun h =>
          h.kind == HandlerKind.rotatingFile
            && h.baseFilename == some (pathJoin (get_log_dir env)
                (safe_name_of name ++ ".log"))) = false →
      ensure_module_handler cwd env handlers name
        = Except.ok (handlers ++
            [{ kind := HandlerKind.rotatingFile,
               baseFilename := some (abspath cwd (pathJoin (get_log_dir env)
                 (safe_name_of name ++ ".log"))),
               level := lv, maxBytes := 5 * 1024 * 1024, backupCount := 5,
               hasUserFilter := true }]) := by
  intro cwd env handlers name lv hlv hany
  simp only [ensure_module_handler, hany, Bool.false_eq_true, if_false, hlv]
  rfl

/-- Witness for C9's amended theorem: a fresh logger, environment
`LOG_DIR=/d`, default level. -/
theorem config_reread_each_call_witness :
    ensure_module_handler "/srv" [("LOG_DIR", "/d")] [] "x"
      = Except.ok
          [{ kind := HandlerKind.rotatingFile,
             baseFilename := some "/d/x.log",
             level := 20, maxBytes := 5 * 1024 * 1024, backupCount := 5,
             hasUserFilter := true }] :=
  config_reread_each_call "/srv" [("LOG_DIR", "/d")] [] "x" 20 rfl rfl

/-- C10.  At the public interface the empty string behaves like an absent
argument: `set_log_user ""` stores the sentinel `"-"`, and `get_logger ""`
resolves to the default component name `app` — it is indistinguishable from
`get_logger "app"` / `get_logger` with no argument, so no logger or sink is
created for the empty name. -/
theorem empty_string_defaults :
    (∀ v : String, (set_log_user (some "") v).1 = "-") ∧
    logger_name_of (some "") = "app" ∧
    (∀ s : LogState,
      get_logger s (some "") = get_logger s (some "app") ∧
      get_logger s (some "") = get_logger s none) :=
  ⟨fun _ => rfl, rfl, fun _ => ⟨rfl, rfl⟩⟩
